import Mathlib

/-!
Verification of the AI newsletter generator repository.

The development shallowly embeds the two relevant modules:
  * Main.py  — the NewsletterGenerator pipeline (customization resolution,
    style directive, template table, success/error result construction);
  * App.py / app.py — the presentation shell (generate-button guard,
    history list, analytics metrics, download artifacts).

External collaborators (the crew framework, the LLM, the search API) are
modelled as an oracle parameter of type Except String String: `ok m` means
the sequential crew run completed and its stringified output is `m`;
`error e` means some call raised an exception whose str() is `e`.

Python string primitives (split, replace, count) are embedded over
List Char with CPython semantics (left-to-right, greedy, non-overlapping).
-/

namespace NewsApp

/-- ASCII whitespace recognized by Python str.split() with no argument
(unicode whitespace beyond ASCII is not used by this repository). -/
def pyIsSpace (c : Char) : Bool :=
  c = ' ' || c = '\t' || c = '\n' || c = '\x0d' || c = '\x0c' || c = '\x0b'

/-- Helper for whitespace split: `acc` holds the (reversed) current word. -/
def splitWsAux : List Char → List Char → List (List Char)
  | [], [] => []
  | [], acc => [acc.reverse]
  | c :: cs, acc =>
    if pyIsSpace c then
      match acc with
      | [] => splitWsAux cs []
      | _ => acc.reverse :: splitWsAux cs []
    else splitWsAux cs (c :: acc)

/-- Python str.split() with no separator: split on whitespace runs,
dropping empty pieces. -/
def pySplitWs (s : String) : List String :=
  (splitWsAux s.data []).map String.mk

/-- Helper for separator split (keeps empty pieces, CPython semantics
of str.split(sep) for a one-character separator). -/
def splitOnAux (sep : Char) : List Char → List Char → List (List Char)
  | [], acc => [acc.reverse]
  | c :: cs, acc =>
    if c = sep then acc.reverse :: splitOnAux sep cs []
    else splitOnAux sep cs (c :: acc)

/-- Python str.split(sep) for a one-character separator. -/
def pySplitOn (s : String) (sep : Char) : List String :=
  (splitOnAux sep s.data []).map String.mk

/-- Core of Python str.replace, structurally recursive on the list: when
`skip = k+1` the current character belongs to a previous match and is
consumed without being emitted; when `skip = 0` a match of `old` at the
head emits `new` and schedules the remaining `old.length - 1` matched
characters for consumption.  Scans left to right, non-overlapping. -/
def replaceAux (old new : List Char) : List Char → Nat → List Char
  | [], _ => []
  | _ :: cs, skip + 1 => replaceAux old new cs skip
  | c :: cs, 0 =>
    if old ≠ [] ∧ old.isPrefixOf (c :: cs) then
      new ++ replaceAux old new cs (old.length - 1)
    else
      c :: replaceAux old new cs 0

/-- Python str.replace over char lists.  (The repository never calls
replace with an empty pattern, so the empty-pattern corner of CPython
is irrelevant; the guard makes the function total.) -/
def replaceL (old new l : List Char) : List Char :=
  replaceAux old new l 0

/-- Python str.replace. -/
def pyReplace (s old new : String) : String :=
  String.mk (replaceL old.data new.data s.data)

/-- Core of Python str.count, structurally recursive on the list: `skip`
counts characters still covered by a previous match. -/
def countOccAux (pat : List Char) : List Char → Nat → Nat
  | [], _ => 0
  | _ :: cs, skip + 1 => countOccAux pat cs skip
  | c :: cs, 0 =>
    if pat ≠ [] ∧ pat.isPrefixOf (c :: cs) then
      1 + countOccAux pat cs (pat.length - 1)
    else
      countOccAux pat cs 0

/-- Python str.count over char lists: number of non-overlapping
occurrences of `pat`, scanning left to right.  (Never called with an
empty pattern by this repository.) -/
def countOccL (pat l : List Char) : Nat :=
  countOccAux pat l 0

/-- Python s.count(pat). -/
def pyCount (s pat : String) : Nat :=
  countOccL pat.data s.data

/- ===== Main.py : NewsletterGenerator ===== -/

/-- The customization dict passed to NewsletterGenerator: every key is
optional (customization.get with a default). `custom_sections = none`
covers both an absent key and an explicit None value, which the code
cannot distinguish (the default of the .get call is None). -/
structure Customization where
  tone : Option String := none
  length : Option String := none
  focus : Option String := none
  include_images : Option Bool := none
  include_cta : Option Bool := none
  include_stats : Option Bool := none
  include_quotes : Option Bool := none
  template : Option String := none
  custom_sections : Option String := none
deriving DecidableEq, Repr

/-- The customization options after the .get defaults of Main.py
lines 68–76 have been applied. -/
structure ResolvedCustomization where
  tone : String
  length : String
  focus : String
  include_images : Bool
  include_cta : Bool
  include_stats : Bool
  include_quotes : Bool
  template : String
  custom_sections : Option String
deriving DecidableEq, Repr

/-- Main.py lines 64–76: `if customization is None: customization = {}`
followed by the .get calls with their defaults. -/
def resolveCustomization (customization : Option Customization) : ResolvedCustomization :=
  let c := customization.getD {}
  { tone := c.tone.getD "Professional"
    length := c.length.getD "Medium (1000 words)"
    focus := c.focus.getD "Balanced"
    include_images := c.include_images.getD false
    include_cta := c.include_cta.getD false
    include_stats := c.include_stats.getD true
    include_quotes := c.include_quotes.getD true
    template := c.template.getD "Standard"
    custom_sections := c.custom_sections }

/-- The conditional sentence for include_images (Main.py line 84). -/
def imgSentence : String := "- Include image placeholders with [Image: description]"

/-- The conditional sentence for include_cta (Main.py line 85). -/
def ctaSentence : String := "- Include a clear call-to-action at the end"

/-- The conditional sentence for include_stats (Main.py line 86). -/
def statsSentence : String := "- Emphasize statistics and data points"

/-- The conditional sentence for include_quotes (Main.py line 87). -/
def quotesSentence : String := "- Include expert quotes when available"

/-- Main.py lines 79–88: the style_instructions f-string. -/
def style_instructions (tone lengthOpt focus : String)
    (include_images include_cta include_stats include_quotes : Bool) : String :=
  "\n    Writing Style:\n    - Tone: " ++ tone ++
  "\n    - Length: " ++ lengthOpt ++
  "\n    - Focus: " ++ focus ++
  "\n    " ++ (if include_images then imgSentence else "") ++
  "\n    " ++ (if include_cta then ctaSentence else "") ++
  "\n    " ++ (if include_stats then statsSentence else "") ++
  "\n    " ++ (if include_quotes then quotesSentence else "") ++
  "\n    "

/-- The style directive of a resolved customization record. -/
def styleOf (r : ResolvedCustomization) : String :=
  style_instructions r.tone r.length r.focus
    r.include_images r.include_cta r.include_stats r.include_quotes

/-- Main.py templates dict, entry "Standard" (lines 92–112). -/
def standardTemplate : String :=
  "\n        # [Compelling Subject Line]\n        \n        ## Welcome\n        [Engaging introduction]\n        \n        ## [Main Story]\n        [Key insights and analysis]\n        \n        ## Featured Content\n        [Deeper exploration]\n        \n        ## Quick Updates\n        [Bullet points with actionable insights]\n        \n        ## This Week\x27s Highlights\n        [Notable developments]\n        \n        ## Sources & Further Reading\n        [Properly cited sources]\n        "

/-- Main.py templates dict, entry "Tech News" (lines 114–134). -/
def techNewsTemplate : String :=
  "\n        # 🚀 [Tech Headline]\n        \n        ## 💡 The Big Picture\n        [Context and why it matters]\n        \n        ## 🔬 Deep Dive\n        [Technical analysis]\n        \n        ## 💼 Industry Impact\n        [Business implications]\n        \n        ## 🛠️ What You Can Do\n        [Actionable takeaways]\n        \n        ## 📰 More Headlines\n        [Quick hits]\n        \n        ## 🔗 Resources\n        [Links and sources]\n        "

/-- Main.py templates dict, entry "Business Weekly" (lines 136–156). -/
def businessWeeklyTemplate : String :=
  "\n        # 📊 [Business Headline]\n        \n        ## Executive Summary\n        [Quick overview]\n        \n        ## Market Analysis\n        [Trends and movements]\n        \n        ## Company Spotlight\n        [Featured business/leader]\n        \n        ## Investment Insights\n        [Financial implications]\n        \n        ## Week Ahead\n        [What to watch]\n        \n        ## Sources\n        [References]\n        "

/-- Main.py templates dict, entry "Research Digest" (lines 158–178). -/
def researchDigestTemplate : String :=
  "\n        # 🔬 [Research Topic]\n        \n        ## Abstract\n        [Summary of key findings]\n        \n        ## Key Research\n        [Main studies and papers]\n        \n        ## Methodology Spotlight\n        [Interesting approaches]\n        \n        ## Implications\n        [What this means]\n        \n        ## Future Directions\n        [What\x27s next]\n        \n        ## References\n        [Academic sources]\n        "

/-- Main.py line 180: templates dict entry "Custom" is
`custom_sections if custom_sections else "Standard"` — Python truthiness,
so None and the empty string both fall back to the literal string
"Standard" (not the Standard skeleton). -/
def customTemplateValue (custom_sections : Option String) : String :=
  match custom_sections with
  | some s => if s = "" then "Standard" else s
  | none => "Standard"

/-- Main.py line 183: `templates.get(template, templates["Standard"])`. -/
def selected_template (custom_sections : Option String) (template : String) : String :=
  if template = "Standard" then standardTemplate
  else if template = "Tech News" then techNewsTemplate
  else if template = "Business Weekly" then businessWeeklyTemplate
  else if template = "Research Digest" then researchDigestTemplate
  else if template = "Custom" then customTemplateValue custom_sections
  else standardTemplate

/-- Main.py line 220: `length.split('(')[1].split(')')[0]`, the only
fallible step of task construction (an IndexError when the length string
has no parenthesis; every other step is total f-string formatting).
Returns none exactly when the Python code raises. -/
def lengthTarget (lengthOpt : String) : Option String :=
  ((pySplitOn lengthOpt '(').get? 1).bind fun s => (pySplitOn s ')').get? 0

/-- The dict returned by NewsletterGenerator: content, status, and (on
success only) the customization dict. -/
structure GenResult where
  content : String
  status : String
  customization : Option Customization
deriving DecidableEq, Repr

/-- Main.py lines 53–246: NewsletterGenerator.  `crewRun` is the oracle
for the external sequential crew execution (task construction happens
first inside the same try block; its only fallible step is modelled by
lengthTarget).  On success the content is str(result) of the crew run,
returned verbatim; on any exception e the except branch builds
"Error generating newsletter: " ++ str(e). -/
def NewsletterGenerator (topic : String) (customization : Option Customization)
    (crewRun : Except String String) : GenResult :=
  match lengthTarget (resolveCustomization customization).length with
  | none =>
    { content := "Error generating newsletter: list index out of range"
      status := "error"
      customization := none }
  | some _ =>
    match crewRun with
    | Except.ok result =>
      { content := result
        status := "success"
        customization := some (customization.getD {}) }
    | Except.error e =>
      { content := "Error generating newsletter: " ++ e
        status := "error"
        customization := none }

/- ===== App.py / app.py : presentation shell ===== -/

/-- App.py line 113: the tone selectbox options. -/
def toneOptions : List String :=
  ["Professional", "Casual", "Technical", "Inspirational", "Humorous"]

/-- App.py line 120: the length selectbox options. -/
def lengthOptions : List String :=
  ["Short (500 words)", "Medium (1000 words)", "Long (1500+ words)"]

/-- App.py line 128: the focus selectbox options. -/
def focusOptions : List String :=
  ["Balanced", "News-heavy", "Analysis-heavy", "Tutorial-style"]

/-- Python truthiness of an os.getenv result (None and the empty string
are falsy). -/
def pyTruthy (o : Option String) : Bool :=
  match o with
  | none => false
  | some s => s ≠ ""

/-- Outcome of pressing the Generate button: either one of the two
blocking error messages is displayed and NewsletterGenerator is never
invoked, or the pipeline runs with the assembled customization dict. -/
inductive GenerateOutcome where
  | errorEmptyTopic
  | errorMissingKeys
  | runPipeline (customization : Customization)
deriving DecidableEq, Repr

/-- App.py lines 163–191 (and app.py lines 86–105): the guard executed
when the Generate button is pressed.  `groq`/`serper` are the os.getenv
results for the two credentials. -/
def pressGenerate (topic : String) (groq serper : Option String)
    (customization : Customization) : GenerateOutcome :=
  if topic = "" then GenerateOutcome.errorEmptyTopic
  else if ¬(pyTruthy groq && pyTruthy serper) then GenerateOutcome.errorMissingKeys
  else GenerateOutcome.runPipeline customization

/-- A history entry (App.py lines 201–206); app.py omits the
customization key, modelled as none. -/
structure HistoryEntry where
  topic : String
  content : String
  timestamp : String
  customization : Option Customization
deriving DecidableEq, Repr

/-- App.py lines 196–206: a history entry is appended only in the
`result["status"] == "success"` branch. -/
def appendHistoryOnSuccess (hist : List HistoryEntry) (topic timestamp : String)
    (customization : Customization) (result : GenResult) : List HistoryEntry :=
  if result.status = "success" then
    hist ++ [{ topic := topic, content := result.content,
               timestamp := timestamp, customization := some customization }]
  else hist

/-- One generation interaction of a session, as seen by the history
logic of App.py. -/
structure GenEvent where
  topic : String
  timestamp : String
  customization : Customization
  result : GenResult
deriving DecidableEq, Repr

/-- App.py: folding the per-request history update over a sequence of
generation interactions of one session. -/
def sessionHistory (hist : List HistoryEntry) (events : List GenEvent) : List HistoryEntry :=
  events.foldl
    (fun h ev => appendHistoryOnSuccess h ev.topic ev.timestamp ev.customization ev.result)
    hist

/-- The history entry created for a successful generation. -/
def entryOf (ev : GenEvent) : HistoryEntry :=
  { topic := ev.topic, content := ev.result.content,
    timestamp := ev.timestamp, customization := some ev.customization }

/-- App.py line 68: the sidebar shows
`reversed(st.session_state.newsletter_history[-5:])`, the last five
entries, most recent first. -/
def displayedHistory (hist : List HistoryEntry) : List HistoryEntry :=
  (hist.drop (hist.length - 5)).reverse

/-- App.py line 250: the markdown download sends result["content"]
unchanged. -/
def markdownDownload (content : String) : String := content

/-- App.py line 285: `content.replace("#", "").replace("*", "")`. -/
def plainTextDownload (content : String) : String :=
  pyReplace (pyReplace content "#" "") "*" ""

/-- App.py line 221: `len(result["content"].split())`. -/
def wordCountMetric (content : String) : Nat :=
  (pySplitWs content).length

/-- App.py line 229: `result["content"].count("##")`. -/
def sectionsMetric (content : String) : Nat :=
  pyCount content "##"

/-- App.py lines 258–274, literal text before the interpolation of the
html_content f-string. -/
def htmlPrefix : String :=
  "\n                        <!DOCTYPE html>\n                        <html>\n                        <head>\n                            <meta charset=\"utf-8\">\n                            <style>\n                                body \x7b font-family: Arial, sans-serif; max-width: 600px; margin: 0 auto; padding: 20px; \x7d\n                                h1 \x7b color: #333; \x7d\n                                h2 \x7b color: #666; border-bottom: 2px solid #eee; padding-bottom: 10px; \x7d\n                                a \x7b color: #0066cc; \x7d\n                            </style>\n                        </head>\n                        <body>\n                            "

/-- App.py lines 258–274, literal text after the interpolation. -/
def htmlSuffix : String :=
  "\n                        </body>\n                        </html>\n                        "

/-- App.py line 271: the interpolated body,
content.replace applied three times in sequence. -/
def htmlDownload (content : String) : String :=
  htmlPrefix ++
    pyReplace (pyReplace (pyReplace content "#" "<h1>") "##" "</h1><h2>") "\n" "<br>" ++
    htmlSuffix

/- ===== Spec-side definitions (formalizing the spec's words, for
refinement comparisons against the code-side embeddings above) ===== -/

/-- Spec side: the number of whitespace-delimited tokens of a character
list, counted directly as the number of maximal non-whitespace runs
(the flag records whether the previous character was a non-space). -/
def tokenCountAux : Bool → List Char → Nat
  | _, [] => 0
  | prevNonSpace, c :: cs =>
    if pyIsSpace c then tokenCountAux false cs
    else (if prevNonSpace then 0 else 1) + tokenCountAux true cs

/-- Spec side: number of whitespace-delimited tokens. -/
def tokenCount (l : List Char) : Nat := tokenCountAux false l

/-- Spec side: the number of "##" substrings (non-overlapping, scanned
left to right), as a direct two-character scan. -/
def countHH : List Char → Nat
  | [] => 0
  | [_] => 0
  | c :: d :: rest =>
    if c = '#' ∧ d = '#' then 1 + countHH rest else countHH (d :: rest)

/-- Spec side: content with every '#' and every '*' character removed. -/
def specPlainText (content : String) : String :=
  String.mk (content.data.filter fun c => !(c == '#' || c == '*'))

/-- Spec side (C8): the HTML body produced from content by the chain
replace('#','<h1>'), then replace('##','</h1><h2>'), then
replace('\n','<br>'), exactly as the claim words it. -/
def specHtmlBody (content : String) : String :=
  pyReplace (pyReplace (pyReplace content "#" "<h1>") "##" "</h1><h2>") "\n" "<br>"

/- ===== Lemmas about the Python string primitives ===== -/

/-- If a nonempty pattern is a prefix of x :: b then x occurs in the
pattern. -/
lemma mem_of_isPrefixOf_cons {pat : List Char} {x : Char} {b : List Char}
    (hne : pat ≠ []) (h : pat.isPrefixOf (x :: b) = true) : x ∈ pat := by
  rw [ List.isPrefixOf_iff_prefix] at h
  obtain ⟨rest, hrest⟩ := h
  cases pat with
  | nil => exact absurd rfl hne
  | cons p ps =>
    simp only [List.cons_append] at hrest
    obtain ⟨rfl, -⟩ := List.cons.inj hrest
    exact List.mem_cons_self _ _

/-- A pattern avoiding x that is a prefix of a ++ x :: b cannot reach
past a. -/
lemma length_le_of_isPrefixOf_append {pat a : List Char} {x : Char} {b : List Char}
    (hx : x ∉ pat) (h : pat.isPrefixOf (a ++ x :: b) = true) : pat.length ≤ a.length := by
  by_contra hlt
  push_neg at hlt
  rw [ List.isPrefixOf_iff_prefix] at h
  have h2 : a ++ [x] <+: a ++ x :: b := ⟨b, by simp⟩
  have hlen : (a ++ [x]).length ≤ pat.length := by
    simp only [List.length_append, List.length_singleton]
    omega
  have h3 : a ++ [x] <+: pat := List.prefix_of_prefix_length_le h2 h hlen
  exact hx (h3.subset (by simp))

/-- Occurrence counting distributes over a separator character that does
not occur in the pattern: no occurrence can straddle the separator. -/
lemma countOccAux_append_sep (pat : List Char) (x : Char) (hne : pat ≠ []) (hx : x ∉ pat) :
    ∀ (a : List Char) (skip : Nat) (b : List Char), skip ≤ a.length →
      countOccAux pat (a ++ x :: b) skip = countOccAux pat a skip + countOccAux pat b 0 := by
  intro a
  induction a with
  | nil =>
    intro skip b hskip
    have hs0 : skip = 0 := Nat.le_zero.mp (by simpa using hskip)
    subst hs0
    have hnp : ¬ (pat.isPrefixOf (x :: b) = true) := fun hcon =>
      hx (mem_of_isPrefixOf_cons hne hcon)
    simp only [List.nil_append, countOccAux]
    rw [if_neg fun hand => hnp hand.2]
    omega
  | cons c cs ih =>
    intro skip b hskip
    match skip with
    | skip' + 1 =>
      simp only [List.cons_append, countOccAux]
      exact ih skip' b (by simpa using hskip)
    | 0 =>
      by_cases hp : pat.isPrefixOf (c :: cs) = true
      · have hp2 : pat.isPrefixOf (c :: cs ++ x :: b) = true := by
          rw [ List.isPrefixOf_iff_prefix] at hp ⊢
          exact hp.trans ⟨x :: b, by simp⟩
        have hlen : pat.length ≤ (c :: cs).length := by
          rw [ List.isPrefixOf_iff_prefix] at hp
          exact hp.length_le
        simp only [List.cons_append, countOccAux]
        rw [if_pos ⟨hne, by simpa using hp2⟩, if_pos ⟨hne, hp⟩]
        have hle : pat.length - 1 ≤ cs.length := by
          simp only [List.length_cons] at hlen
          omega
        simp only [List.append_eq]
        rw [ih (pat.length - 1) b hle]
        omega
      · have hp2 : ¬ (pat.isPrefixOf (c :: cs ++ x :: b) = true) := by
          intro hcon
          have hlen : pat.length ≤ (c :: cs).length :=
            length_le_of_isPrefixOf_append (a := c :: cs) hx (by simpa using hcon)
          apply hp
          rw [ List.isPrefixOf_iff_prefix] at hcon ⊢
          exact List.prefix_of_prefix_length_le (by simpa using hcon)
            (⟨x :: b, by simp⟩ : (c :: cs) <+: c :: cs ++ x :: b) hlen
        simp only [List.cons_append, countOccAux]
        rw [if_neg fun hand => hp2 (by simpa using hand.2), if_neg fun hand => hp hand.2]
        simp only [List.append_eq]
        exact ih 0 b (Nat.zero_le _)

/-- String-count form of the separator split. -/
lemma countOccL_append_sep (pat : List Char) (x : Char) (hne : pat ≠ []) (hx : x ∉ pat)
    (a b : List Char) :
    countOccL pat (a ++ x :: b) = countOccL pat a + countOccL pat b :=
  countOccAux_append_sep pat x hne hx a 0 b (Nat.zero_le _)

/-- The style directive split into its ten newline-separated lines. -/
lemma style_instructions_data (t l f : String) (b1 b2 b3 b4 : Bool) :
    (style_instructions t l f b1 b2 b3 b4).data =
      ([] : List Char) ++ '\n' ::
      (("    Writing Style:" : String).data ++ '\n' ::
      (("    - Tone: " : String).data ++ t.data ++ '\n' ::
      (("    - Length: " : String).data ++ l.data ++ '\n' ::
      (("    - Focus: " : String).data ++ f.data ++ '\n' ::
      (("    " : String).data ++ (if b1 then imgSentence else "").data ++ '\n' ::
      (("    " : String).data ++ (if b2 then ctaSentence else "").data ++ '\n' ::
      (("    " : String).data ++ (if b3 then statsSentence else "").data ++ '\n' ::
      (("    " : String).data ++ (if b4 then quotesSentence else "").data ++ '\n' ::
      ("    " : String).data)))))))) := by
  simp only [style_instructions, String.data_append]
  simp only [List.append_assoc, List.cons_append, List.nil_append]

/-- Counting a newline-free pattern in the style directive reduces to
counting it in each line separately. -/
lemma style_count_decomp (pat : List Char) (hne : pat ≠ []) (hnl : '\n' ∉ pat)
    (t l f : String) (b1 b2 b3 b4 : Bool) :
    countOccL pat (style_instructions t l f b1 b2 b3 b4).data =
      countOccL pat ("    Writing Style:" : String).data
      + countOccL pat (("    - Tone: " : String).data ++ t.data)
      + countOccL pat (("    - Length: " : String).data ++ l.data)
      + countOccL pat (("    - Focus: " : String).data ++ f.data)
      + countOccL pat (("    " : String).data ++ (if b1 then imgSentence else "").data)
      + countOccL pat (("    " : String).data ++ (if b2 then ctaSentence else "").data)
      + countOccL pat (("    " : String).data ++ (if b3 then statsSentence else "").data)
      + countOccL pat (("    " : String).data ++ (if b4 then quotesSentence else "").data)
      + countOccL pat ("    " : String).data := by
  rw [style_instructions_data]
  simp only [countOccL_append_sep pat '\n' hne hnl]
  have h0 : countOccL pat [] = 0 := by
    cases pat with
    | nil => exact absurd rfl hne
    | cons p ps => rfl
  omega

/-- None of the four flag sentences occurs in the tone line, for any of
the UI's tone options. -/
lemma tone_line_counts (t : String) (ht : t ∈ toneOptions) :
    countOccL imgSentence.data (("    - Tone: " : String).data ++ t.data) = 0 ∧
    countOccL ctaSentence.data (("    - Tone: " : String).data ++ t.data) = 0 ∧
    countOccL statsSentence.data (("    - Tone: " : String).data ++ t.data) = 0 ∧
    countOccL quotesSentence.data (("    - Tone: " : String).data ++ t.data) = 0 := by
  fin_cases ht <;> exact (by decide)

/-- None of the four flag sentences occurs in the length line, for any
of the UI's length options. -/
lemma length_line_counts (l : String) (hl : l ∈ lengthOptions) :
    countOccL imgSentence.data (("    - Length: " : String).data ++ l.data) = 0 ∧
    countOccL ctaSentence.data (("    - Length: " : String).data ++ l.data) = 0 ∧
    countOccL statsSentence.data (("    - Length: " : String).data ++ l.data) = 0 ∧
    countOccL quotesSentence.data (("    - Length: " : String).data ++ l.data) = 0 := by
  fin_cases hl <;> exact (by decide)

/-- None of the four flag sentences occurs in the focus line, for any of
the UI's focus options. -/
lemma focus_line_counts (f : String) (hf : f ∈ focusOptions) :
    countOccL imgSentence.data (("    - Focus: " : String).data ++ f.data) = 0 ∧
    countOccL ctaSentence.data (("    - Focus: " : String).data ++ f.data) = 0 ∧
    countOccL statsSentence.data (("    - Focus: " : String).data ++ f.data) = 0 ∧
    countOccL quotesSentence.data (("    - Focus: " : String).data ++ f.data) = 0 := by
  fin_cases hf <;> exact (by decide)

/-- Deleting all copies of a single character with replace is filtering. -/
lemma replaceAux_single_nil (a : Char) :
    ∀ l : List Char, replaceAux [a] [] l 0 = l.filter (fun c => !(c == a)) := by
  intro l
  induction l with
  | nil => rfl
  | cons c cs ih =>
    by_cases hca : a = c
    · subst hca
      have hpre : [a].isPrefixOf (a :: cs) = true := by
        simp [List.isPrefixOf]
      have l1 : replaceAux [a] [] (a :: cs) 0 = [] ++ replaceAux [a] [] cs 0 := by
        show (if [a] ≠ [] ∧ [a].isPrefixOf (a :: cs) = true
              then [] ++ replaceAux [a] [] cs ([a].length - 1)
              else a :: replaceAux [a] [] cs 0) = [] ++ replaceAux [a] [] cs 0
        rw [if_pos ⟨List.cons_ne_nil _ _, hpre⟩]
        rfl
      rw [l1, ih]
      simp [List.filter_cons]
    · have hpre : ¬ ([a].isPrefixOf (c :: cs) = true) := by
        simpa [List.isPrefixOf] using hca
      have l1 : replaceAux [a] [] (c :: cs) 0 = c :: replaceAux [a] [] cs 0 := by
        show (if [a] ≠ [] ∧ [a].isPrefixOf (c :: cs) = true
              then [] ++ replaceAux [a] [] cs ([a].length - 1)
              else c :: replaceAux [a] [] cs 0) = c :: replaceAux [a] [] cs 0
        rw [if_neg fun hand => hpre hand.2]
      rw [l1, ih]
      have hcb : (!(c == a)) = true := by
        simp [Ne.symm hca]
      simp [List.filter_cons, hcb]

/-- pyReplace with a one-character pattern and empty replacement deletes
exactly that character. -/
lemma pyReplace_delete_char (s old : String) (a : Char) (h : old.data = [a]) :
    (pyReplace s old "").data = s.data.filter (fun c => !(c == a)) := by
  show replaceAux old.data ("" : String).data s.data 0 = _
  rw [h]
  exact replaceAux_single_nil a s.data

/-- The whitespace split length, related to direct token counting. -/
lemma splitWsAux_length (l : List Char) :
    ∀ acc : List Char,
      (splitWsAux l acc).length =
        tokenCountAux (!acc.isEmpty) l + (if acc.isEmpty then 0 else 1) := by
  induction l with
  | nil =>
    intro acc
    cases acc <;> simp [splitWsAux, tokenCountAux]
  | cons c cs ih =>
    intro acc
    by_cases hsp : pyIsSpace c
    · cases acc with
      | nil => simp [splitWsAux, tokenCountAux, hsp, ih []]
      | cons a as =>
        simp only [splitWsAux, if_pos hsp, tokenCountAux]
        simp [hsp, ih [], Nat.add_comm]
    · cases acc with
      | nil =>
        simp only [splitWsAux, if_neg hsp, tokenCountAux]
        simp [hsp, ih (c :: [])]
        omega
      | cons a as =>
        simp only [splitWsAux, if_neg hsp, tokenCountAux]
        simp [hsp, ih (c :: a :: as)]

/-- Python count of "##" equals the direct two-character scan. -/
lemma countOccAux_hashhash : ∀ l : List Char, countOccAux ['#', '#'] l 0 = countHH l
  | [] => rfl
  | [c] => by
    by_cases h : c = '#' <;> simp [countOccAux, countHH, List.isPrefixOf, h]
  | c :: d :: rest => by
    by_cases hc : c = '#'
    · by_cases hd : d = '#'
      · subst hc; subst hd
        have hpre : (['#', '#'] : List Char).isPrefixOf ('#' :: '#' :: rest) = true := by
          simp [List.isPrefixOf]
        have l1 : countOccAux ['#', '#'] ('#' :: '#' :: rest) 0 =
            1 + countOccAux ['#', '#'] rest 0 := by
          show (if ['#', '#'] ≠ [] ∧ (['#', '#'] : List Char).isPrefixOf ('#' :: '#' :: rest) = true
                then 1 + countOccAux ['#', '#'] ('#' :: rest) ((['#', '#'] : List Char).length - 1)
                else countOccAux ['#', '#'] ('#' :: rest) 0)
              = 1 + countOccAux ['#', '#'] rest 0
          rw [if_pos ⟨List.cons_ne_nil _ _, hpre⟩]
          rfl
        have l2 : countHH ('#' :: '#' :: rest) = 1 + countHH rest := by
          show (if ('#' = '#' ∧ '#' = '#') then 1 + countHH rest else countHH ('#' :: rest))
              = 1 + countHH rest
          rw [if_pos ⟨rfl, rfl⟩]
        rw [l1, l2, countOccAux_hashhash rest]
      · subst hc
        have hpre : ¬ ((['#', '#'] : List Char).isPrefixOf ('#' :: d :: rest) = true) := by
          simp [List.isPrefixOf]
          exact fun h => hd h.symm
        have l1 : countOccAux ['#', '#'] ('#' :: d :: rest) 0 =
            countOccAux ['#', '#'] (d :: rest) 0 := by
          show (if ['#', '#'] ≠ [] ∧ (['#', '#'] : List Char).isPrefixOf ('#' :: d :: rest) = true
                then 1 + countOccAux ['#', '#'] (d :: rest) ((['#', '#'] : List Char).length - 1)
                else countOccAux ['#', '#'] (d :: rest) 0) = countOccAux ['#', '#'] (d :: rest) 0
          rw [if_neg fun hand => hpre hand.2]
        have l2 : countHH ('#' :: d :: rest) = countHH (d :: rest) := by
          show (if ('#' = '#' ∧ d = '#') then 1 + countHH rest else countHH (d :: rest))
              = countHH (d :: rest)
          rw [if_neg fun hand => hd hand.2]
        rw [l1, l2, countOccAux_hashhash (d :: rest)]
    · have hpre : ¬ ((['#', '#'] : List Char).isPrefixOf (c :: d :: rest) = true) := by
        simp [List.isPrefixOf]
        exact fun h _ => hc h.symm
      have l1 : countOccAux ['#', '#'] (c :: d :: rest) 0 =
          countOccAux ['#', '#'] (d :: rest) 0 := by
        show (if ['#', '#'] ≠ [] ∧ (['#', '#'] : List Char).isPrefixOf (c :: d :: rest) = true
              then 1 + countOccAux ['#', '#'] (d :: rest) ((['#', '#'] : List Char).length - 1)
              else countOccAux ['#', '#'] (d :: rest) 0) = countOccAux ['#', '#'] (d :: rest) 0
        rw [if_neg fun hand => hpre hand.2]
      have l2 : countHH (c :: d :: rest) = countHH (d :: rest) := by
        show (if (c = '#' ∧ d = '#') then 1 + countHH rest else countHH (d :: rest))
            = countHH (d :: rest)
        rw [if_neg fun hand => hc hand.1]
      rw [l1, l2, countOccAux_hashhash (d :: rest)]
termination_by l => l.length

/-- The sidebar display (drop then reverse) equals the five most recent
entries in most-recent-first order. -/
lemma displayedHistory_eq (hist : List HistoryEntry) :
    displayedHistory hist = hist.reverse.take 5 := by
  unfold displayedHistory
  rw [List.reverse_drop]
  rcases Nat.le_total hist.length 5 with h | h
  · have h1 : hist.length - 5 = 0 := by omega
    rw [h1, Nat.sub_zero, List.take_of_length_le (by simp),
        List.take_of_length_le (by simpa using h)]
  · rw [Nat.sub_sub_self h]

/-- A session whose generations all succeed appends exactly one entry
per generation, in order. -/
lemma sessionHistory_all_success (evs : List GenEvent)
    (hall : ∀ ev ∈ evs, ev.result.status = "success") :
    ∀ hist : List HistoryEntry, sessionHistory hist evs = hist ++ evs.map entryOf := by
  induction evs with
  | nil => intro hist; simp [sessionHistory]
  | cons ev rest ih =>
    intro hist
    have hev : ev.result.status = "success" := hall ev (List.mem_cons_self _ _)
    have hrest : ∀ e ∈ rest, e.result.status = "success" :=
      fun e he => hall e (List.mem_cons_of_mem _ he)
    simp only [sessionHistory, List.foldl_cons]
    rw [show (appendHistoryOnSuccess hist ev.topic ev.timestamp ev.customization ev.result)
          = hist ++ [entryOf ev] from by simp [appendHistoryOnSuccess, hev, entryOf]]
    have := ih hrest (hist ++ [entryOf ev])
    simp only [sessionHistory] at this
    rw [this]
    simp

/-- The history only grows: every earlier state is a prefix of every
later state (entries are never mutated or deleted). -/
lemma sessionHistory_grows (evs : List GenEvent) :
    ∀ hist : List HistoryEntry, hist <+: sessionHistory hist evs := by
  induction evs with
  | nil => intro hist; simp [sessionHistory]
  | cons ev rest ih =>
    intro hist
    have hstep : hist <+:
        (appendHistoryOnSuccess hist ev.topic ev.timestamp ev.customization ev.result) := by
      unfold appendHistoryOnSuccess
      split
      · exact List.prefix_append _ _
      · exact List.prefix_refl _
    have htail :=
      ih (appendHistoryOnSuccess hist ev.topic ev.timestamp ev.customization ev.result)
    have hfold : sessionHistory hist (ev :: rest) =
        sessionHistory (appendHistoryOnSuccess hist ev.topic ev.timestamp
          ev.customization ev.result) rest := by
      simp [sessionHistory]
    rw [hfold]
    exact hstep.trans htail

/- ===== Claim theorems ===== -/

/-- C5: for every combination of the four boolean flags, the style
directive contains the fixed sentence for a flag exactly once
(Python-count semantics) when that flag is true and omits it (count 0)
when the flag is false; each equation depends only on its own flag, so
each flag's contribution is independent of the other three flags. -/
theorem C5_style_flag_sentences (t l f : String)
    (ht : t ∈ toneOptions) (hl : l ∈ lengthOptions) (hf : f ∈ focusOptions)
    (b1 b2 b3 b4 : Bool) :
    pyCount (style_instructions t l f b1 b2 b3 b4) imgSentence = (if b1 then 1 else 0) ∧
    pyCount (style_instructions t l f b1 b2 b3 b4) ctaSentence = (if b2 then 1 else 0) ∧
    pyCount (style_instructions t l f b1 b2 b3 b4) statsSentence = (if b3 then 1 else 0) ∧
    pyCount (style_instructions t l f b1 b2 b3 b4) quotesSentence = (if b4 then 1 else 0) := by
  obtain ⟨ht1, ht2, ht3, ht4⟩ := tone_line_counts t ht
  obtain ⟨hl1, hl2, hl3, hl4⟩ := length_line_counts l hl
  obtain ⟨hf1, hf2, hf3, hf4⟩ := focus_line_counts f hf
  refine ⟨?_, ?_, ?_, ?_⟩
  · show countOccL imgSentence.data (style_instructions t l f b1 b2 b3 b4).data = _
    rw [style_count_decomp imgSentence.data (by decide) (by decide), ht1, hl1, hf1]
    cases b1 <;> cases b2 <;> cases b3 <;> cases b4 <;> decide
  · show countOccL ctaSentence.data (style_instructions t l f b1 b2 b3 b4).data = _
    rw [style_count_decomp ctaSentence.data (by decide) (by decide), ht2, hl2, hf2]
    cases b1 <;> cases b2 <;> cases b3 <;> cases b4 <;> decide
  · show countOccL statsSentence.data (style_instructions t l f b1 b2 b3 b4).data = _
    rw [style_count_decomp statsSentence.data (by decide) (by decide), ht3, hl3, hf3]
    cases b1 <;> cases b2 <;> cases b3 <;> cases b4 <;> decide
  · show countOccL quotesSentence.data (style_instructions t l f b1 b2 b3 b4).data = _
    rw [style_count_decomp quotesSentence.data (by decide) (by decide), ht4, hl4, hf4]
    cases b1 <;> cases b2 <;> cases b3 <;> cases b4 <;> decide

/-- C5 witness: the flag-sentence property evaluated at a concrete
customization (tone Professional, medium length, balanced focus, images
on, call-to-action off, statistics on, quotes off). -/
theorem C5_style_flag_sentences_witness :
    pyCount (style_instructions "Professional" "Medium (1000 words)" "Balanced"
      true false true false) imgSentence = 1 ∧
    pyCount (style_instructions "Professional" "Medium (1000 words)" "Balanced"
      true false true false) ctaSentence = 0 ∧
    pyCount (style_instructions "Professional" "Medium (1000 words)" "Balanced"
      true false true false) statsSentence = 1 ∧
    pyCount (style_instructions "Professional" "Medium (1000 words)" "Balanced"
      true false true false) quotesSentence = 0 :=
  C5_style_flag_sentences "Professional" "Medium (1000 words)" "Balanced"
    (by decide) (by decide) (by decide) true false true false

/-- C1: template resolution — Custom with a supplied (truthy) text gives
that text verbatim; each of the four named templates gives its fixed
skeleton; any unrecognized name falls back to the Standard skeleton. -/
theorem C1_template_resolution (custom_sections : Option String) (template : String) :
    (∀ s, template = "Custom" → custom_sections = some s → s ≠ "" →
      selected_template custom_sections template = s) ∧
    (template = "Standard" → selected_template custom_sections template = standardTemplate) ∧
    (template = "Tech News" → selected_template custom_sections template = techNewsTemplate) ∧
    (template = "Business Weekly" →
      selected_template custom_sections template = businessWeeklyTemplate) ∧
    (template = "Research Digest" →
      selected_template custom_sections template = researchDigestTemplate) ∧
    (template ∉ ["Standard", "Tech News", "Business Weekly", "Research Digest", "Custom"] →
      selected_template custom_sections template = standardTemplate) := by
  refine ⟨?_, ?_, ?_, ?_, ?_, ?_⟩
  · rintro s rfl rfl hs
    simp [selected_template, customTemplateValue, hs]
  · rintro rfl; simp [selected_template]
  · rintro rfl; simp [selected_template]
  · rintro rfl; simp [selected_template]
  · rintro rfl; simp [selected_template]
  · intro h
    simp only [List.mem_cons, List.not_mem_nil, or_false, not_or] at h
    obtain ⟨h1, h2, h3, h4, h5⟩ := h
    simp [selected_template, h1, h2, h3, h4, h5]

/-- C1 witness: concrete instances of the three behaviours (supplied
custom text, a named template, an unrecognized name). -/
theorem C1_template_resolution_witness :
    selected_template (some "Intro\nBody\nOutro") "Custom" = "Intro\nBody\nOutro" ∧
    selected_template none "Tech News" = techNewsTemplate ∧
    selected_template none "Bananas" = standardTemplate :=
  ⟨(C1_template_resolution (some "Intro\nBody\nOutro") "Custom").1
      "Intro\nBody\nOutro" rfl rfl (by decide),
   (C1_template_resolution none "Tech News").2.2.1 rfl,
   (C1_template_resolution none "Bananas").2.2.2.2.2 (by decide)⟩

/-- C9: with template = Custom and custom_sections absent/None or empty,
the selected template is the literal eight-character string "Standard",
which is not the Standard markdown skeleton. -/
theorem C9_custom_without_sections :
    selected_template none "Custom" = "Standard" ∧
    selected_template (some "") "Custom" = "Standard" ∧
    ("Standard" : String).length = 8 ∧
    selected_template none "Custom" ≠ standardTemplate := by
  refine ⟨rfl, rfl, by decide, ?_⟩
  intro h
  exact absurd (h ▸ rfl) (by decide : ("Standard" : String) ≠ standardTemplate)

/-- C10: the defaults applied when customization is None (or keys are
omitted): Professional tone, medium length, balanced focus, template
Standard, images and call-to-action off, statistics and quotes on — so
the statistics and quotes sentences appear in the default directive. -/
theorem C10_customization_defaults :
    resolveCustomization none =
      { tone := "Professional", length := "Medium (1000 words)", focus := "Balanced",
        include_images := false, include_cta := false,
        include_stats := true, include_quotes := true,
        template := "Standard", custom_sections := none } ∧
    resolveCustomization (some {}) = resolveCustomization none ∧
    pyCount (styleOf (resolveCustomization none)) statsSentence = 1 ∧
    pyCount (styleOf (resolveCustomization none)) quotesSentence = 1 := by
  refine ⟨rfl, rfl, by decide, by decide⟩

/-- C4: with an empty topic or a missing credential, pressing Generate
shows one of the two blocking error messages and the pipeline is never
invoked. -/
theorem C4_generate_guard (topic : String) (groq serper : Option String)
    (customization : Customization)
    (h : topic = "" ∨ groq = none ∨ serper = none) :
    (pressGenerate topic groq serper customization = GenerateOutcome.errorEmptyTopic ∨
     pressGenerate topic groq serper customization = GenerateOutcome.errorMissingKeys) ∧
    ∀ c, pressGenerate topic groq serper customization ≠ GenerateOutcome.runPipeline c := by
  unfold pressGenerate
  rcases h with rfl | rfl | rfl
  · simp
  · by_cases ht : topic = "" <;> simp [ht, pyTruthy]
  · by_cases ht : topic = "" <;> simp [ht, pyTruthy]

/-- C4 witness: the two spec scenarios — empty topic with credentials
set, and non-empty topic "AI trends" with a missing credential. -/
theorem C4_generate_guard_witness :
    ((pressGenerate "" (some "g") (some "s") {} = GenerateOutcome.errorEmptyTopic ∨
      pressGenerate "" (some "g") (some "s") {} = GenerateOutcome.errorMissingKeys) ∧
     ∀ c, pressGenerate "" (some "g") (some "s") {} ≠ GenerateOutcome.runPipeline c) ∧
    ((pressGenerate "AI trends" none (some "s") {} = GenerateOutcome.errorEmptyTopic ∨
      pressGenerate "AI trends" none (some "s") {} = GenerateOutcome.errorMissingKeys) ∧
     ∀ c, pressGenerate "AI trends" none (some "s") {} ≠ GenerateOutcome.runPipeline c) :=
  ⟨C4_generate_guard "" (some "g") (some "s") {} (Or.inl rfl),
   C4_generate_guard "AI trends" none (some "s") {} (Or.inr (Or.inl rfl))⟩

/-- C2: when the crew run completes with output M (task construction
having succeeded), NewsletterGenerator returns status success with
content exactly M, and the markdown download byte-equals that content. -/
theorem C2_success_passthrough (topic : String) (customization : Option Customization)
    (M : String)
    (hlen : lengthTarget (resolveCustomization customization).length ≠ none) :
    (NewsletterGenerator topic customization (Except.ok M)).status = "success" ∧
    (NewsletterGenerator topic customization (Except.ok M)).content = M ∧
    markdownDownload (NewsletterGenerator topic customization (Except.ok M)).content = M := by
  unfold NewsletterGenerator
  cases hcase : lengthTarget (resolveCustomization customization).length with
  | none => exact absurd hcase hlen
  | some p => exact ⟨rfl, rfl, rfl⟩

/-- C2 witness: the spec scenario topic "Climate tech" with default
customization and writer output M. -/
theorem C2_success_passthrough_witness :
    (NewsletterGenerator "Climate tech" none
      (Except.ok "# Hello\n\n## World")).status = "success" ∧
    (NewsletterGenerator "Climate tech" none
      (Except.ok "# Hello\n\n## World")).content = "# Hello\n\n## World" ∧
    markdownDownload (NewsletterGenerator "Climate tech" none
      (Except.ok "# Hello\n\n## World")).content = "# Hello\n\n## World" :=
  C2_success_passthrough "Climate tech" none "# Hello\n\n## World" (by decide)

/-- C3: any exception — from the external calls (crew run raising e) or
from task construction (the length IndexError) — yields status error
with a message embedding str(e); and the UI appends no history entry for
an error result. -/
theorem C3_exception_handling (topic timestamp e : String)
    (customization : Option Customization) (hist : List HistoryEntry) (c0 : Customization) :
    (lengthTarget (resolveCustomization customization).length ≠ none →
      (NewsletterGenerator topic customization (Except.error e)).status = "error" ∧
      (NewsletterGenerator topic customization (Except.error e)).content =
        "Error generating newsletter: " ++ e) ∧
    (lengthTarget (resolveCustomization customization).length = none →
      ∀ run, (NewsletterGenerator topic customization run).status = "error" ∧
        (NewsletterGenerator topic customization run).content =
          "Error generating newsletter: list index out of range") ∧
    appendHistoryOnSuccess hist topic timestamp c0
      (NewsletterGenerator topic customization (Except.error e)) = hist := by
  unfold NewsletterGenerator
  cases hcase : lengthTarget (resolveCustomization customization).length with
  | none =>
    refine ⟨fun hne => absurd rfl hne, fun _ run => ⟨rfl, rfl⟩, ?_⟩
    simp [appendHistoryOnSuccess]
  | some p =>
    refine ⟨fun _ => ⟨rfl, rfl⟩, fun heq => absurd heq (by simp), ?_⟩
    simp [appendHistoryOnSuccess]

/-- C3 witness: a crew exception "boom" with default customization, the
construction-time IndexError for a length value without parentheses, and
the unchanged (empty) history. -/
theorem C3_exception_handling_witness :
    ((NewsletterGenerator "AI" none (Except.error "boom")).status = "error" ∧
     (NewsletterGenerator "AI" none (Except.error "boom")).content =
       "Error generating newsletter: boom") ∧
    ((NewsletterGenerator "AI" (some { length := some "Oops" })
        (Except.error "boom")).status = "error" ∧
     (NewsletterGenerator "AI" (some { length := some "Oops" })
        (Except.error "boom")).content =
       "Error generating newsletter: list index out of range") ∧
    appendHistoryOnSuccess [] "AI" "2025-05-01 12:00" {}
      (NewsletterGenerator "AI" none (Except.error "boom")) = [] :=
  ⟨(C3_exception_handling "AI" "2025-05-01 12:00" "boom" none [] {}).1 (by decide),
   (C3_exception_handling "AI" "2025-05-01 12:00" "boom"
      (some { length := some "Oops" }) [] {}).2.1 (by decide) (Except.error "boom"),
   (C3_exception_handling "AI" "2025-05-01 12:00" "boom" none [] {}).2.2⟩

/-- C6: the plain-text download equals the content with every '#' and
'*' character removed; the word count equals the number of
whitespace-delimited tokens; the section count equals the number of
(non-overlapping) "##" substrings. -/
theorem C6_success_views (C : String) :
    plainTextDownload C = specPlainText C ∧
    wordCountMetric C = tokenCount C.data ∧
    sectionsMetric C = countHH C.data := by
  refine ⟨?_, ?_, ?_⟩
  · apply String.ext
    show (pyReplace (pyReplace C "#" "") "*" "").data =
      C.data.filter (fun c => !(c == '#' || c == '*'))
    rw [pyReplace_delete_char _ "*" '*' rfl, pyReplace_delete_char C "#" '#' rfl,
        List.filter_filter]
    apply List.filter_congr
    intro c _
    cases hh : (c == '#') <;> cases hs : (c == '*') <;> simp [hh, hs]
  · show ((splitWsAux C.data []).map String.mk).length = tokenCount C.data
    rw [List.length_map, splitWsAux_length C.data []]
    simp [tokenCount]
  · show countOccAux ("##" : String).data C.data 0 = countHH C.data
    exact countOccAux_hashhash C.data

/-- C7: with all generations of a session successful, the history has
one entry per generation in insertion order; the sidebar shows the five
most recent entries most-recent-first (at most five); and the history
list only ever grows by appending (no mutation or deletion). -/
theorem C7_history_invariants (evs : List GenEvent)
    (hall : ∀ ev ∈ evs, ev.result.status = "success") :
    (sessionHistory [] evs).length = evs.length ∧
    sessionHistory [] evs = evs.map entryOf ∧
    (∀ hist : List HistoryEntry,
      displayedHistory hist = hist.reverse.take 5 ∧ (displayedHistory hist).length ≤ 5) ∧
    (∀ (hist : List HistoryEntry) (more : List GenEvent),
      hist <+: sessionHistory hist more) := by
  have hmain := sessionHistory_all_success evs hall []
  refine ⟨?_, ?_, ?_, ?_⟩
  · rw [hmain]; simp
  · rw [hmain]; simp
  · intro hist
    refine ⟨displayedHistory_eq hist, ?_⟩
    rw [displayedHistory_eq hist]
    simp [List.length_take]
  · intro hist more
    exact sessionHistory_grows more hist

/-- C7 witness: a concrete session of six successful generations — the
history has six entries and the invariants hold. -/
theorem C7_history_invariants_witness :
    (sessionHistory []
      [⟨"t1", "ts1", {}, ⟨"c1", "success", some {}⟩⟩,
       ⟨"t2", "ts2", {}, ⟨"c2", "success", some {}⟩⟩,
       ⟨"t3", "ts3", {}, ⟨"c3", "success", some {}⟩⟩,
       ⟨"t4", "ts4", {}, ⟨"c4", "success", some {}⟩⟩,
       ⟨"t5", "ts5", {}, ⟨"c5", "success", some {}⟩⟩,
       ⟨"t6", "ts6", {}, ⟨"c6", "success", some {}⟩⟩]).length = 6 :=
  (C7_history_invariants
    [⟨"t1", "ts1", {}, ⟨"c1", "success", some {}⟩⟩,
     ⟨"t2", "ts2", {}, ⟨"c2", "success", some {}⟩⟩,
     ⟨"t3", "ts3", {}, ⟨"c3", "success", some {}⟩⟩,
     ⟨"t4", "ts4", {}, ⟨"c4", "success", some {}⟩⟩,
     ⟨"t5", "ts5", {}, ⟨"c5", "success", some {}⟩⟩,
     ⟨"t6", "ts6", {}, ⟨"c6", "success", some {}⟩⟩] (by decide)).1

/-- C8: the HTML download is the fixed wrapper around the body obtained
from the content by the literal replace chain
replace('#','<h1>'), replace('##','</h1><h2>'), replace('\n','<br>'). -/
theorem C8_html_naive_substitution (C : String) :
    htmlDownload C = htmlPrefix ++ specHtmlBody C ++ htmlSuffix := rfl

end NewsApp
